import Mathlib

/-!
Shallow embedding of WFPlayer (src/index.js), the top-level class of the
waveform-player library, together with the parts of its collaborators
(utils.clamp, Decoder) that the specification's claims depend on.

Modelling conventions:
- JS numbers are modelled as rationals (`ℚ`); the one place the code
  produces `Infinity` (the `duration` getter with no attached media
  element) is modelled with `Option ℚ`, where `none` stands for Infinity.
- JS exceptions do not roll back state, so every fallible operation is
  modelled as `State → State × Option WfError`: the returned state is the
  state at the moment the exception was thrown (or the final state when no
  exception occurred).  This makes "no partial mutation" claims real
  statements rather than artifacts of the encoding.
- Rendering side effects (`this.update()`, the event emitter, the DOM
  template) change no instance state modelled here and are omitted.
-/

/-- Runtime value of a dynamically-typed JS option, restricted to the
kinds the option scheme of WFPlayer distinguishes for numeric options. -/
inductive JSValue where
  | num (q : ℚ)
  | str (s : String)
  | bool (b : Bool)
  | null
deriving Repr, DecidableEq

/-- The `kindOf` type tag used by the option validator (`typeof`-style). -/
def JSValue.kindOf : JSValue → String
  | .num _ => "number"
  | .str _ => "string"
  | .bool _ => "boolean"
  | .null => "null"

/-- Error taxonomy of the spec.  In the source every failure is raised
through `errorHandle(condition, message)`, which throws a JS `Error`
carrying a message; the spec names the classes.  `configError` carries the
name of the offending option (the source message also interpolates the
range and the value). -/
inductive WfError where
  | configError (optionName : String)
  | invalidTargetError
  | invalidChannelError
deriving Repr, DecidableEq

/-- Boolean success test for `Except` results. -/
def exceptOk {ε α : Type} : Except ε α → Bool
  | .ok _ => true
  | .error _ => false

/-- The readable fields of an attached HTML media element that WFPlayer
consumes: `{ currentTime, duration, paused, ended, readyState, currentSrc }`. -/
structure MediaElement where
  currentTime : ℚ
  duration : ℚ
  paused : Bool
  ended : Bool
  readyState : ℕ
  currentSrc : String
deriving Repr, DecidableEq

/-- The validated options record of a WFPlayer instance.  Only the fields
that some claim depends on are carried: the six numeric options validated
by `checkNum` in the scheme, and `mediaElement`.  The boolean toggles,
color strings and the `container` element are validated by kind only and
no claim concerns them. -/
structure Options where
  mediaElement : Option MediaElement
  refreshDelay : ℚ
  channel : ℚ
  duration : ℚ
  padding : ℚ
  waveScale : ℚ
  pixelRatio : ℚ
deriving Repr, DecidableEq

/-- A partial options object passed to `setOptions`.  A `none` field is an
absent key; numeric fields are raw `JSValue`s because the caller may pass
a value of the wrong kind. -/
structure OptionsPatch where
  mediaElement : Option (Option MediaElement) := none
  refreshDelay : Option JSValue := none
  channel : Option JSValue := none
  duration : Option JSValue := none
  padding : Option JSValue := none
  waveScale : Option JSValue := none
  pixelRatio : Option JSValue := none
deriving Repr, DecidableEq

/-- The numeric validator factory of the option scheme
(`WFPlayer.scheme`): first checks that the runtime kind is `number`, then
that the value lies in `[lo, hi]` and, when required, is an integer
(`Number.isInteger`, i.e. denominator 1 on `ℚ`).  On success the validator
keeps the value; on failure it throws, which the spec classifies as a
`ConfigError`. -/
def checkNum (name : String) (lo hi : ℚ) (isInteger : Bool) (v : JSValue) : Except WfError ℚ :=
  match v with
  | .num q =>
      if lo ≤ q ∧ q ≤ hi ∧ (isInteger → q.den = 1) then .ok q
      else .error (.configError name)
  | _ => .error (.configError name)

/-- Scheme entry `refreshDelay: checkNum('refreshDelay', 16, 1000, true)`. -/
def scheme.refreshDelay : JSValue → Except WfError ℚ := checkNum "refreshDelay" 16 1000 true

/-- Scheme entry `channel: checkNum('channel', 0, 5, true)`. -/
def scheme.channel : JSValue → Except WfError ℚ := checkNum "channel" 0 5 true

/-- Scheme entry `duration: checkNum('duration', 1, 100, true)`. -/
def scheme.duration : JSValue → Except WfError ℚ := checkNum "duration" 1 100 true

/-- Scheme entry `padding: checkNum('padding', 1, 100, true)`. -/
def scheme.padding : JSValue → Except WfError ℚ := checkNum "padding" 1 100 true

/-- Scheme entry `waveScale: checkNum('waveScale', 0.1, 10, false)`. -/
def scheme.waveScale : JSValue → Except WfError ℚ := checkNum "waveScale" 0.1 10 false

/-- Scheme entry `pixelRatio: checkNum('pixelRatio', 1, 10, false)`. -/
def scheme.pixelRatio : JSValue → Except WfError ℚ := checkNum "pixelRatio" 1 10 false

/-- Modelled from the spec: the Decoder component (src/decoder.js is not
part of the sources provided).  It owns the currently decoded audio
(per-channel sample/peak data) and the materialized data of the active
channel; `channelCount` is the length of `channels`. -/
structure DecoderState where
  channels : List (List ℚ)
  channelData : List ℚ
deriving Repr, DecidableEq

/-- Modelled from the spec: `Decoder.decodeSuccess` stores the decoded
audio and computes the peak data for the configured channel. -/
def DecoderState.decodeSuccess (chs : List (List ℚ)) (ch : ℕ) (_d : DecoderState) : DecoderState :=
  { channels := chs, channelData := chs.getD ch [] }

/-- Modelled from the spec: `Decoder.changeChannel(index)` requires
`index < channelCount` and fails with an `InvalidChannelError` otherwise,
leaving its state untouched; on success it recomputes the active
channel's data from the already-held decoded audio. -/
def DecoderState.changeChannel (i : ℕ) (d : DecoderState) : DecoderState × Option WfError :=
  if i < d.channels.length then
    ({ d with channelData := d.channels.getD i [] }, none)
  else
    (d, some .invalidChannelError)

/-- Modelled from the spec: `Decoder.destroy` releases the decoded audio
and the peak table, returning to the empty state; idempotent. -/
def DecoderState.destroy (_d : DecoderState) : DecoderState :=
  { channels := [], channelData := [] }

/-- The mutable per-instance state of a `WFPlayer`: the internal clock
`_currentTime`, the destroy flag, the validated options and the decoder
(the template, drawer, controller and loader hold no state any claim
depends on).  `id` is the unique instance id used by the process-wide
registry. -/
structure WFPlayer where
  _currentTime : ℚ
  isDestroy : Bool
  options : Options
  decoder : DecoderState
  id : ℕ
deriving Repr, DecidableEq

/-- Getter `currentTime`: the attached media element is the source of
truth when present, the internal `_currentTime` otherwise. -/
def WFPlayer.currentTime (w : WFPlayer) : ℚ :=
  match w.options.mediaElement with
  | some m => m.currentTime
  | none => w._currentTime

/-- Getter `duration`: the media element's duration when attached,
`Infinity` (modelled as `none`) otherwise. -/
def WFPlayer.duration (w : WFPlayer) : Option ℚ :=
  match w.options.mediaElement with
  | some m => some m.duration
  | none => none

/-- Getter `playing`: with a media element attached,
`currentTime > 0 && !paused && !ended && readyState > 2`; `false`
otherwise. -/
def WFPlayer.playing (w : WFPlayer) : Bool :=
  match w.options.mediaElement with
  | some m => decide (0 < m.currentTime) && !m.paused && !m.ended && decide (2 < m.readyState)
  | none => false

/-- Modelled from the spec: `utils.clamp` (src/utils.js is not part of the
sources provided), as used by `seek`: clamp a value to `[lo, hi]`, where
the upper bound may be `Infinity` (`none`), in which case only the lower
bound applies. -/
def clampTo (v lo : ℚ) (hi : Option ℚ) : ℚ :=
  max lo (match hi with
    | some h => min v h
    | none => v)

/-- Method `seek(second)`: sets `_currentTime` to
`clamp(second, 0, this.duration)` and, when a media element is attached
and its `currentTime` differs from the clamped value, writes the clamped
value into the media element.  The `typeof second === 'number'` guard of
the source always passes because the argument is typed `ℚ` here. -/
def WFPlayer.seek (second : ℚ) (w : WFPlayer) : WFPlayer :=
  let ct := clampTo second 0 w.duration
  let w1 := { w with _currentTime := ct }
  match w1.options.mediaElement with
  | some m =>
      if m.currentTime ≠ ct then
        { w1 with options := { w1.options with mediaElement := some { m with currentTime := ct } } }
      else w1
  | none => w1

/-- The defaults of the six numeric options and `mediaElement` from
`WFPlayer.default`; `pixelRatio` is `Math.ceil(window.devicePixelRatio)`,
evaluated at default-option construction time, so the environment's
device pixel ratio is a parameter here. -/
def defaultOptions (devicePixelRatio : ℚ) : Options :=
  { mediaElement := none
    refreshDelay := 50
    channel := 0
    duration := 10
    padding := 5
    waveScale := 0.8
    pixelRatio := ((⌈devicePixelRatio⌉ : ℤ) : ℚ) }

/-- Validation step of `setOptions`: the raw object
`{...WFPlayer.default, ...this.options, ...options}` is passed through the
validator against the scheme.  After construction `this.options` carries
every key, so the merged raw value of a field is the patch value when the
key is present and the current value otherwise; the validator throws at
the first failing field.  On success the validated object becomes the new
options record. -/
def Options.validateMerged (cur : Options) (p : OptionsPatch) : Except WfError Options :=
  match scheme.refreshDelay (p.refreshDelay.getD (.num cur.refreshDelay)) with
  | .error err => .error err
  | .ok rd =>
  match scheme.channel (p.channel.getD (.num cur.channel)) with
  | .error err => .error err
  | .ok ch =>
  match scheme.duration (p.duration.getD (.num cur.duration)) with
  | .error err => .error err
  | .ok du =>
  match scheme.padding (p.padding.getD (.num cur.padding)) with
  | .error err => .error err
  | .ok pa =>
  match scheme.waveScale (p.waveScale.getD (.num cur.waveScale)) with
  | .error err => .error err
  | .ok ws =>
  match scheme.pixelRatio (p.pixelRatio.getD (.num cur.pixelRatio)) with
  | .error err => .error err
  | .ok pr =>
    .ok { mediaElement := p.mediaElement.getD cur.mediaElement
          refreshDelay := rd
          channel := ch
          duration := du
          padding := pa
          waveScale := ws
          pixelRatio := pr }

/-- Method `setOptions(options)`: validates the merged options object and
assigns `this.options` only after validation succeeds (the source assigns
the validator's return value, and the validator throws before returning
on a bad field).  The trailing `this.update()` is a pure rendering call. -/
def WFPlayer.setOptions (w : WFPlayer) (p : OptionsPatch) : WFPlayer × Option WfError :=
  match w.options.validateMerged p with
  | .ok o => ({ w with options := o }, none)
  | .error e => (w, some e)

/-- Method `changeChannel(channel)`: first delegates to
`decoder.changeChannel` (which throws on an out-of-range index), then
merges `{ channel }` through `setOptions`, then updates the rendering. -/
def WFPlayer.changeChannel (i : ℕ) (w : WFPlayer) : WFPlayer × Option WfError :=
  match DecoderState.changeChannel i w.decoder with
  | (d, some e) => ({ w with decoder := d }, some e)
  | (d, none) => WFPlayer.setOptions { w with decoder := d } { channel := some (.num (i : ℚ)) }

/-- JS `String.prototype.trim`: strips leading and trailing whitespace
(executable model of the builtin used by the `load` guard). -/
def jsTrim (s : String) : String :=
  .mk (((s.toList.dropWhile Char.isWhitespace).reverse.dropWhile Char.isWhitespace).reverse)

/-- The input shapes `load` dispatches on, made explicit as a tagged
union: an already-decoded audio buffer (has `getChannelData`), a byte
array (has `.buffer`), a media element, a string URL, or anything else
(`null`, numbers, plain objects, ...). -/
inductive LoadTarget where
  | audioBuffer (channels : List (List ℚ))
  | byteArray (data : List ℕ)
  | media (m : MediaElement)
  | str (s : String)
  | other
deriving Repr, DecidableEq

/-- Method `load(target)`.  An audio buffer is decoded synchronously; a
byte array starts an asynchronous decode (no synchronous decoder-state
change is modelled, the outcome arrives via the event bus); a media
element is first stored into `this.options.mediaElement` and then
replaced by its `currentSrc`; finally anything that is not a non-blank
string fails the `errorHandle` guard, which the spec classifies as an
`InvalidTargetError`.  Note that in the media-element branch the
assignment to `options.mediaElement` happens before that guard runs.
`loader.load` and `controller.init` hold no modelled state. -/
def WFPlayer.load (target : LoadTarget) (w : WFPlayer) : WFPlayer × Option WfError :=
  match target with
  | .audioBuffer chs =>
      ({ w with decoder := w.decoder.decodeSuccess chs w.options.channel.num.toNat }, none)
  | .byteArray _ => (w, none)
  | .media m =>
      let w1 := { w with options := { w.options with mediaElement := some m } }
      if jsTrim m.currentSrc = "" then (w1, some .invalidTargetError)
      else (w1, none)
  | .str s =>
      if jsTrim s = "" then (w, some .invalidTargetError)
      else (w, none)
  | .other => (w, some .invalidTargetError)

/-- JS `Array.prototype.indexOf`: index of the first occurrence, `-1` when
absent. -/
def jsIndexOf (l : List ℕ) (x : ℕ) : ℤ :=
  match l.findIdx? (· = x) with
  | some i => (i : ℤ)
  | none => -1

/-- JS `Array.prototype.splice(start, 1)`: a negative `start` counts from
the end (clamped to 0), a `start` past the end removes nothing; otherwise
the single element at `start` is removed. -/
def jsSpliceRemoveOne {α : Type} (l : List α) (start : ℤ) : List α :=
  let s : ℕ := if start < 0 then (start + l.length).toNat else min start.toNat l.length
  l.take s ++ l.drop (s + 1)

/-- The registry line of `destroy`:
`instances.splice(instances.indexOf(this), 1)`, on the process-wide
`instances` array (modelled by the list of live instance ids). -/
def destroyRegistry (registry : List ℕ) (instId : ℕ) : List ℕ :=
  jsSpliceRemoveOne registry (jsIndexOf registry instId)

/-- Method `destroy()`: sets `isDestroy`, tears down the collaborators
(of these only the decoder holds modelled state; its `destroy` is
idempotent per the spec) and removes the instance from the process-wide
registry with `splice(indexOf(this), 1)`. -/
def WFPlayer.destroy (w : WFPlayer) (registry : List ℕ) : WFPlayer × List ℕ :=
  ({ w with isDestroy := true, decoder := w.decoder.destroy },
   destroyRegistry registry w.id)

/-! Concrete fixtures used by witnesses and counterexamples. -/

/-- A concrete live instance with no attached media element, default-like
numeric options and a decoded 2-channel audio. -/
def wNoMedia : WFPlayer :=
  { _currentTime := 0
    isDestroy := false
    options :=
      { mediaElement := none
        refreshDelay := 50
        channel := 0
        duration := 10
        padding := 5
        waveScale := 0.8
        pixelRatio := 2 }
    decoder := { channels := [[1, -1], [2, -2]], channelData := [1, -1] }
    id := 1 }

/-- A concrete media element whose `currentSrc` is the empty string (no
source attached yet). -/
def mEmptySrc : MediaElement :=
  { currentTime := 0
    duration := 30
    paused := true
    ended := false
    readyState := 0
    currentSrc := "" }

/-- C1: for every number `s`, `seek(s)` leaves the internal `_currentTime`
equal to `clamp(s, 0, duration)`; when a media element is attached its
`currentTime` is set to the same clamped value (and is otherwise left
absent), so the public `currentTime` getter reports the clamped value in
every case. -/
theorem seek_clamps_currentTime (s : ℚ) (w : WFPlayer) :
    ((w.seek s)._currentTime = clampTo s 0 w.duration) ∧
    ((w.seek s).currentTime = clampTo s 0 w.duration) ∧
    ((w.seek s).options.mediaElement
      = w.options.mediaElement.map (fun m => { m with currentTime := clampTo s 0 w.duration })) := by
  cases hm : w.options.mediaElement with
  | none =>
      simp [WFPlayer.seek, WFPlayer.currentTime, hm]
  | some m =>
      by_cases h : m.currentTime = clampTo s 0 w.duration
      · simp [WFPlayer.seek, WFPlayer.currentTime, hm, h]
        rw [← h]
      · simp [WFPlayer.seek, WFPlayer.currentTime, hm, h]

/-- C7: the `currentTime` getter is a hard switch on media-element
presence: with an element attached it reports the element's `currentTime`
whatever the internal `_currentTime` holds, and with no element attached
it reports the internal `_currentTime`; the `duration` getter switches the
same way (`none` models `Infinity`). -/
theorem currentTime_hard_switch (w : WFPlayer) (m : MediaElement) (t : ℚ) :
    (({ w with options := { w.options with mediaElement := some m }, _currentTime := t }).currentTime
        = m.currentTime) ∧
    (({ w with options := { w.options with mediaElement := none }, _currentTime := t }).currentTime
        = t) ∧
    (({ w with options := { w.options with mediaElement := some m } }).duration = some m.duration) ∧
    (({ w with options := { w.options with mediaElement := none } }).duration = none) := by
  simp [WFPlayer.currentTime, WFPlayer.duration]

/-- C8: the default `pixelRatio` equals `Math.ceil(devicePixelRatio)`
evaluated at default-option construction time: it is at least the device
pixel ratio and less than it plus one, i.e. fractional ratios are rounded
up to the next integer. -/
theorem default_pixelRatio_is_ceil (dpr : ℚ) :
    ((defaultOptions dpr).pixelRatio = ((⌈dpr⌉ : ℤ) : ℚ)) ∧
    (dpr ≤ (defaultOptions dpr).pixelRatio) ∧
    ((defaultOptions dpr).pixelRatio < dpr + 1) := by
  refine ⟨rfl, ?_, ?_⟩
  · simpa [defaultOptions] using Int.le_ceil dpr
  · simpa [defaultOptions] using Int.ceil_lt_add_one dpr

/-- C9: with no media element attached the `duration` getter yields
`Infinity` (modelled as `none`), so for every `s ≥ 0` `seek(s)` stores `s`
exactly: only the lower bound of the clamp ever applies. -/
theorem seek_no_media_exact (w : WFPlayer) (s : ℚ)
    (hm : w.options.mediaElement = none) (hs : 0 ≤ s) :
    w.duration = none ∧ (w.seek s)._currentTime = s := by
  have hd : w.duration = none := by simp [WFPlayer.duration, hm]
  refine ⟨hd, ?_⟩
  simp [WFPlayer.seek, hd, hm, clampTo, max_eq_right hs]

/-- C9 witness: the concrete media-free instance, sought to 3. -/
theorem seek_no_media_exact_witness :
    wNoMedia.duration = none ∧ (wNoMedia.seek 3)._currentTime = 3 :=
  seek_no_media_exact wNoMedia 3 rfl (by norm_num)

/-- C10: the `playing` getter returns `true` exactly when a media element
is attached with `currentTime > 0`, not paused, not ended and
`readyState > 2`; in particular it returns `false` whenever no media
element is attached. -/
theorem playing_characterization (w : WFPlayer) :
    w.playing = true ↔
      ∃ m, w.options.mediaElement = some m ∧ 0 < m.currentTime ∧ m.paused = false ∧
        m.ended = false ∧ 2 < m.readyState := by
  cases hm : w.options.mediaElement with
  | none => simp [WFPlayer.playing, hm]
  | some m => simp [WFPlayer.playing, hm, and_assoc]

/-- C3 counterexample: `load` on a media element whose `currentSrc` is
empty raises the `InvalidTargetError` as claimed, but the instance state
HAS changed: `options.mediaElement` was assigned the element before the
guard ran, so it is no longer what it was before the call. -/
theorem load_empty_src_mutates_mediaElement :
    ((wNoMedia.load (.media mEmptySrc)).2 = some .invalidTargetError) ∧
    ((wNoMedia.load (.media mEmptySrc)).1.options.mediaElement = some mEmptySrc) ∧
    (wNoMedia.options.mediaElement ≠ some mEmptySrc) := by
  decide

/-- C3 amended: every input that is not a decoded buffer, not a byte
array and not a string with non-empty trimmed content after media-element
resolution makes `load` fail synchronously with `InvalidTargetError`; the
instance is left unchanged for non-string and blank-string inputs, while
for a media element with empty `currentSrc` the element has already been
stored into `options.mediaElement` when the error is raised. -/
theorem load_invalid_target (w : WFPlayer) :
    (w.load .other = (w, some .invalidTargetError)) ∧
    (∀ s : String, jsTrim s = "" → w.load (.str s) = (w, some .invalidTargetError)) ∧
    (∀ m : MediaElement, jsTrim m.currentSrc = "" →
      w.load (.media m)
        = ({ w with options := { w.options with mediaElement := some m } },
           some .invalidTargetError)) := by
  refine ⟨rfl, ?_, ?_⟩
  · intro s hs
    simp [WFPlayer.load, hs]
  · intro m hmsrc
    simp [WFPlayer.load, hmsrc]

/-- C3 amended witness: the media element with empty source, loaded into
the concrete media-free instance. -/
theorem load_invalid_target_witness :
    wNoMedia.load (.media mEmptySrc)
      = ({ wNoMedia with options := { wNoMedia.options with mediaElement := some mEmptySrc } },
         some .invalidTargetError) :=
  (load_invalid_target wNoMedia).2.2 mEmptySrc rfl

/-- C4: the code violates the claim at a concrete input: with two live
instances (ids 1 and 2) in the registry, destroying instance 1 twice
leaves the registry empty — the second call finds `indexOf === -1` and
`splice(-1, 1)` removes the LAST registry entry (instance 2), so the
second `destroy` does change the process-wide registry. -/
theorem destroy_second_call_mutates_registry :
    ((wNoMedia.destroy [1, 2]).2 = [2]) ∧
    (((wNoMedia.destroy [1, 2]).1.destroy (wNoMedia.destroy [1, 2]).2).2 = []) := by
  decide

/-- C6: `changeChannel(i)` with `i` at least the channel count of the
currently decoded audio fails synchronously with `InvalidChannelError`
and returns the instance exactly as it was: the materialized channel data
and `options.channel` are untouched. -/
theorem changeChannel_out_of_range (w : WFPlayer) (i : ℕ)
    (h : w.decoder.channels.length ≤ i) :
    w.changeChannel i = (w, some .invalidChannelError) := by
  simp [WFPlayer.changeChannel, DecoderState.changeChannel, Nat.not_lt.mpr h]

/-- C6 witness: channel 5 requested on the concrete 2-channel instance. -/
theorem changeChannel_out_of_range_witness :
    wNoMedia.changeChannel 5 = (wNoMedia, some .invalidChannelError) :=
  changeChannel_out_of_range wNoMedia 5 (by decide)

/-- Acceptance characterization of the numeric scheme validator: it keeps
exactly the values of kind number lying in `[lo, hi]` that are integers
when the integer flag is set. -/
lemma exceptOk_checkNum {name : String} {lo hi : ℚ} {b : Bool} (v : JSValue) :
    exceptOk (checkNum name lo hi b v) = true ↔
      ∃ q, v = .num q ∧ lo ≤ q ∧ q ≤ hi ∧ (b = true → q.den = 1) := by
  cases v with
  | num q =>
      by_cases h : lo ≤ q ∧ q ≤ hi ∧ (b = true → q.den = 1)
      · simp only [checkNum, if_pos h, exceptOk]
        simpa using ⟨h.1, h.2.1, h.2.2⟩
      · simp only [checkNum, if_neg h, exceptOk]
        simpa using h
  | str s => simp [checkNum, exceptOk]
  | bool b2 => simp [checkNum, exceptOk]
  | null => simp [checkNum, exceptOk]

/-- Every failure of the numeric scheme validator is a `ConfigError`
naming the offending option. -/
lemma checkNum_error_eq {name : String} {lo hi : ℚ} {b : Bool} {v : JSValue} {e : WfError}
    (h : checkNum name lo hi b v = .error e) : e = .configError name := by
  cases v with
  | num q =>
      simp only [checkNum] at h
      split_ifs at h with hc
      exact (Except.error.inj h).symm
  | str s =>
      simp only [checkNum, Except.error.injEq] at h
      exact h.symm
  | bool b2 =>
      simp only [checkNum, Except.error.injEq] at h
      exact h.symm
  | null =>
      simp only [checkNum, Except.error.injEq] at h
      exact h.symm

/-- A failing merged validation always reports a `ConfigError`. -/
lemma validateMerged_error_eq {cur : Options} {p : OptionsPatch} {e : WfError}
    (h : cur.validateMerged p = .error e) : ∃ n, e = .configError n := by
  unfold Options.validateMerged at h
  split at h
  next heq => injection h with h2; exact ⟨"refreshDelay", h2 ▸ checkNum_error_eq heq⟩
  next rd heq1 =>
  split at h
  next heq => injection h with h2; exact ⟨"channel", h2 ▸ checkNum_error_eq heq⟩
  next ch heq2 =>
  split at h
  next heq => injection h with h2; exact ⟨"duration", h2 ▸ checkNum_error_eq heq⟩
  next du heq3 =>
  split at h
  next heq => injection h with h2; exact ⟨"padding", h2 ▸ checkNum_error_eq heq⟩
  next pa heq4 =>
  split at h
  next heq => injection h with h2; exact ⟨"waveScale", h2 ▸ checkNum_error_eq heq⟩
  next ws heq5 =>
  split at h
  next heq => injection h with h2; exact ⟨"pixelRatio", h2 ▸ checkNum_error_eq heq⟩
  next pr heq6 => cases h

/-- A successful merged validation means every one of the six numeric
fields (patched value when present, current value otherwise) passed its
scheme validator. -/
lemma validateMerged_ok_checks {cur : Options} {p : OptionsPatch} {o : Options}
    (h : cur.validateMerged p = .ok o) :
    exceptOk (scheme.refreshDelay (p.refreshDelay.getD (.num cur.refreshDelay))) = true ∧
    exceptOk (scheme.channel (p.channel.getD (.num cur.channel))) = true ∧
    exceptOk (scheme.duration (p.duration.getD (.num cur.duration))) = true ∧
    exceptOk (scheme.padding (p.padding.getD (.num cur.padding))) = true ∧
    exceptOk (scheme.waveScale (p.waveScale.getD (.num cur.waveScale))) = true ∧
    exceptOk (scheme.pixelRatio (p.pixelRatio.getD (.num cur.pixelRatio))) = true := by
  unfold Options.validateMerged at h
  split at h
  next heq => cases h
  next rd heq1 =>
  split at h
  next heq => cases h
  next ch heq2 =>
  split at h
  next heq => cases h
  next du heq3 =>
  split at h
  next heq => cases h
  next pa heq4 =>
  split at h
  next heq => cases h
  next ws heq5 =>
  split at h
  next heq => cases h
  next pr heq6 =>
  exact ⟨by rw [heq1]; rfl, by rw [heq2]; rfl, by rw [heq3]; rfl,
         by rw [heq4]; rfl, by rw [heq5]; rfl, by rw [heq6]; rfl⟩

/-- A patch contains a numeric option whose value fails its scheme
validator (wrong runtime kind or out of the documented range). -/
def OptionsPatch.hasInvalidNumeric (p : OptionsPatch) : Prop :=
  (∃ v, p.refreshDelay = some v ∧ exceptOk (scheme.refreshDelay v) = false) ∨
  (∃ v, p.channel = some v ∧ exceptOk (scheme.channel v) = false) ∨
  (∃ v, p.duration = some v ∧ exceptOk (scheme.duration v) = false) ∨
  (∃ v, p.padding = some v ∧ exceptOk (scheme.padding v) = false) ∨
  (∃ v, p.waveScale = some v ∧ exceptOk (scheme.waveScale v) = false) ∨
  (∃ v, p.pixelRatio = some v ∧ exceptOk (scheme.pixelRatio v) = false)

/-- C2: `setOptions` with a patch containing an out-of-range (or
wrong-kind) numeric option fails synchronously with a `ConfigError`, and
the instance — in particular its `options` record — is returned exactly
as it was before the call: the validator throws before the assignment to
`this.options`, so no partial merge is observable. -/
theorem setOptions_invalid_numeric_atomic (w : WFPlayer) (p : OptionsPatch)
    (h : p.hasInvalidNumeric) :
    ∃ n, w.setOptions p = (w, some (.configError n)) := by
  cases he : w.options.validateMerged p with
  | ok o =>
      exfalso
      obtain ⟨h1, h2, h3, h4, h5, h6⟩ := validateMerged_ok_checks he
      rcases h with ⟨v, hv, hb⟩ | ⟨v, hv, hb⟩ | ⟨v, hv, hb⟩ | ⟨v, hv, hb⟩ | ⟨v, hv, hb⟩ | ⟨v, hv, hb⟩
      · rw [hv] at h1; simp only [Option.getD_some] at h1; rw [h1] at hb; cases hb
      · rw [hv] at h2; simp only [Option.getD_some] at h2; rw [h2] at hb; cases hb
      · rw [hv] at h3; simp only [Option.getD_some] at h3; rw [h3] at hb; cases hb
      · rw [hv] at h4; simp only [Option.getD_some] at h4; rw [h4] at hb; cases hb
      · rw [hv] at h5; simp only [Option.getD_some] at h5; rw [h5] at hb; cases hb
      · rw [hv] at h6; simp only [Option.getD_some] at h6; rw [h6] at hb; cases hb
  | error e =>
      obtain ⟨n, rfl⟩ := validateMerged_error_eq he
      exact ⟨n, by simp [WFPlayer.setOptions, he]⟩

/-- A patch setting `refreshDelay` to the out-of-range value 5. -/
def patchRefresh5 : OptionsPatch := { refreshDelay := some (.num 5) }

/-- C2 witness: `refreshDelay: 5` on the concrete instance. -/
theorem setOptions_invalid_numeric_atomic_witness :
    ∃ n, wNoMedia.setOptions patchRefresh5 = (wNoMedia, some (.configError n)) :=
  setOptions_invalid_numeric_atomic wNoMedia patchRefresh5
    (Or.inl ⟨.num 5, rfl, by decide⟩)

/-- C5: the scheme accepts a numeric option value exactly when it lies in
its documented range and has the documented kind: `refreshDelay` an
integer in `[16, 1000]`, `channel` an integer in `[0, 5]`, `duration` an
integer in `[1, 100]`, `padding` an integer in `[1, 100]`, `waveScale`
any number in `[0.1, 10]`, `pixelRatio` any number in `[1, 10]`; every
other value is rejected with an error. -/
theorem scheme_accepts_documented_ranges :
    (∀ v, exceptOk (scheme.refreshDelay v) = true ↔
      ∃ q, v = .num q ∧ 16 ≤ q ∧ q ≤ 1000 ∧ q.den = 1) ∧
    (∀ v, exceptOk (scheme.channel v) = true ↔
      ∃ q, v = .num q ∧ 0 ≤ q ∧ q ≤ 5 ∧ q.den = 1) ∧
    (∀ v, exceptOk (scheme.duration v) = true ↔
      ∃ q, v = .num q ∧ 1 ≤ q ∧ q ≤ 100 ∧ q.den = 1) ∧
    (∀ v, exceptOk (scheme.padding v) = true ↔
      ∃ q, v = .num q ∧ 1 ≤ q ∧ q ≤ 100 ∧ q.den = 1) ∧
    (∀ v, exceptOk (scheme.pixelRatio v) = true ↔
      ∃ q, v = .num q ∧ 1 ≤ q ∧ q ≤ 10) ∧
    (∀ v, exceptOk (scheme.waveScale v) = true ↔
      ∃ q, v = .num q ∧ (0.1 : ℚ) ≤ q ∧ q ≤ 10) := by
  refine ⟨fun v => ?_, fun v => ?_, fun v => ?_, fun v => ?_, fun v => ?_, fun v => ?_⟩ <;>
    simp [scheme.refreshDelay, scheme.channel, scheme.duration, scheme.padding,
      scheme.waveScale, scheme.pixelRatio, exceptOk_checkNum v]
